import Mathlib

/- Shallow embedding of the audio visualizer components
   (AudioVisualizer.tsx, LiveAudioVisualizer.tsx, TextAudioVisualizer.tsx
   with its RecordingVisualizer, and the recording/controls components).
   Canvas coordinates are rationals; byte samples are naturals 0..255.
   Math.floor over nonnegative integer inputs is Nat division. -/

namespace AudioViz

/-- Vertical coordinate assigned to a byte sample by drawWaveform:
the source computes `v = data[i] / 128.0` and `y = (v * height) / 2`. -/
def waveY (height : ℕ) (s : ℕ) : ℚ := ((s : ℚ) / 128) * (height : ℚ) / 2

/-- The polyline points emitted by drawWaveform: for each index `i` below
`data.length` a point at `x = i * (width / data.length)` (the running `x`
starts at 0 and advances by `sliceWidth = width / data.length` per sample;
`moveTo` for the first sample, `lineTo` otherwise), followed by the closing
`ctx.lineTo(width, height / 2)` after the loop. -/
def drawWaveform (width height : ℕ) (data : List ℕ) : List (ℚ × ℚ) :=
  ((List.range data.length).map (fun (i : ℕ) =>
      ((i : ℚ) * ((width : ℚ) / (data.length : ℚ)), waveY height (data.getD i 0))))
    ++ [((width : ℚ), (height : ℚ) / 2)]

theorem drawWaveform_length (width height : ℕ) (data : List ℕ) :
    (drawWaveform width height data).length = data.length + 1 := by
  simp [drawWaveform]

/-- Claim C2 (counterexample): at the supported length L = 32 (a power of two,
L ≥ 32) and width 800, drawWaveform emits 33 connected points, not exactly
L = 32 as claimed: the loop emits one point per sample and the final
`ctx.lineTo(width, height / 2)` adds one more. -/
theorem drawWaveform_emits_extra_point :
    (drawWaveform 800 200 (List.replicate 32 128)).length = 33 ∧
    ¬ (drawWaveform 800 200 (List.replicate 32 128)).length = 32 := by
  constructor
  · simp [drawWaveform]
  · simp [drawWaveform]

/-- Claim C2 (amended): for every snapshot of supported sample length L (a
power of two, L ≥ 32) and every configured width, drawWaveform emits exactly
L + 1 connected polyline points — the L sample points (point i at
x = i * width / L) followed by the closing point (width, height / 2) — so the
first point's x-coordinate is 0 and the last point's x-coordinate equals the
configured width. -/
theorem drawWaveform_point_count_and_span (width height : ℕ) (data : List ℕ)
    (h32 : 32 ≤ data.length) (hpow : ∃ k, data.length = 2 ^ k) :
    (drawWaveform width height data).length = data.length + 1 ∧
    ((drawWaveform width height data).headI).1 = 0 ∧
    (drawWaveform width height data).getLast? =
      some ((width : ℚ), (height : ℚ) / 2) := by
  refine ⟨drawWaveform_length width height data, ?_, List.getLast?_concat _⟩
  obtain ⟨m, hm⟩ : ∃ m, data.length = m + 1 := ⟨data.length - 1, by omega⟩
  simp [drawWaveform, hm, List.range_succ_eq_map]

/-- Witness for the amended Claim C2 at L = 32 = 2 ^ 5, width 800. -/
theorem drawWaveform_point_count_and_span_witness :
    (drawWaveform 800 200 (List.replicate 32 128)).length =
      (List.replicate 32 (128 : ℕ)).length + 1 ∧
    ((drawWaveform 800 200 (List.replicate 32 128)).headI).1 = 0 ∧
    (drawWaveform 800 200 (List.replicate 32 128)).getLast? =
      some (((800 : ℕ) : ℚ), ((200 : ℕ) : ℚ) / 2) :=
  drawWaveform_point_count_and_span 800 200 (List.replicate 32 128)
    (by simp) ⟨5, by simp⟩

/-- Claim C8: on an all-128 (silence) time-domain snapshot every point emitted
by drawWaveform lies at y = height / 2 (a flat horizontal polyline), for every
configured width and height; and each sample s maps to
y = height / 2 + (s / 128 - 1) * height / 2, which is exactly waveY. -/
theorem drawWaveform_silence_flat (width height : ℕ) (data : List ℕ)
    (h128 : ∀ s ∈ data, s = 128) :
    (∀ p ∈ drawWaveform width height data, p.2 = (height : ℚ) / 2) ∧
    (∀ s : ℕ, waveY height s =
      (height : ℚ) / 2 + ((s : ℚ) / 128 - 1) * ((height : ℚ) / 2)) := by
  constructor
  · intro p hp
    simp only [drawWaveform, List.mem_append, List.mem_map, List.mem_range,
      List.mem_singleton] at hp
    rcases hp with ⟨i, hi, rfl⟩ | rfl
    · have hd : data.getD i 0 = 128 := by
        rw [List.getD_eq_getElem data 0 hi]
        exact h128 _ (List.getElem_mem hi)
      rw [hd]
      norm_num [waveY]
    · rfl
  · intro s
    unfold waveY
    ring

/-- Witness for Claim C8 on the concrete silent snapshot [128, 128]. -/
theorem drawWaveform_silence_flat_witness :
    (∀ p ∈ drawWaveform 4 2 [128, 128], p.2 = ((2 : ℕ) : ℚ) / 2) ∧
    (∀ s : ℕ, waveY 2 s =
      ((2 : ℕ) : ℚ) / 2 + ((s : ℚ) / 128 - 1) * (((2 : ℕ) : ℚ) / 2)) :=
  drawWaveform_silence_flat 4 2 [128, 128] (by decide)

/-- Number of spectrum bars: `Math.floor(width / (barWidth + barGap))`. -/
def spectrumBarCount (width barWidth barGap : ℕ) : ℕ :=
  width / (barWidth + barGap)

/-- Decimation step of drawSpectrum: `Math.floor(data.length / barCount)`. -/
def spectrumStep (n barCount : ℕ) : ℕ := n / barCount

/-- The sample indices read by drawSpectrum: `dataIndex = i * step` for each
bar index `i` below barCount. -/
def spectrumIndices (width barWidth barGap n : ℕ) : List ℕ :=
  (List.range (spectrumBarCount width barWidth barGap)).map
    (fun (i : ℕ) => i * spectrumStep n (spectrumBarCount width barWidth barGap))

/-- Bar height of drawSpectrum: `barHeight = (value / 255) * height`. -/
def specBarHeight (height value : ℕ) : ℚ := ((value : ℚ) / 255) * (height : ℚ)

/-- The bars emitted by drawSpectrum, as (x, y, barHeight) triples: for bar i,
`value = data[i * step]`, `barHeight = (value / 255) * height`,
`x = i * (barWidth + barGap)`, `y = height - barHeight`, and the fill is
`ctx.fillRect(x, y, barWidth, barHeight)` (bottom-up). -/
def drawSpectrum (width height barWidth barGap : ℕ) (data : List ℕ) :
    List (ℚ × ℚ × ℚ) :=
  (List.range (spectrumBarCount width barWidth barGap)).map
    (fun (i : ℕ) =>
      let value := data.getD
        (i * spectrumStep data.length (spectrumBarCount width barWidth barGap)) 0
      (((i * (barWidth + barGap) : ℕ) : ℚ),
        (height : ℚ) - specBarHeight height value,
        specBarHeight height value))

theorem spectrum_index_lt (n barCount i : ℕ) (hn : 1 ≤ n) (hi : i < barCount) :
    i * spectrumStep n barCount < n := by
  unfold spectrumStep
  by_cases h : n / barCount = 0
  · rw [h]
    omega
  · have h1 : 1 ≤ n / barCount := Nat.one_le_iff_ne_zero.mpr h
    have h3 : barCount * (n / barCount) ≤ n := by
      rw [Nat.mul_comm]
      exact Nat.div_mul_le_self n barCount
    calc i * (n / barCount) ≤ (barCount - 1) * (n / barCount) :=
          Nat.mul_le_mul_right _ (by omega)
      _ = barCount * (n / barCount) - 1 * (n / barCount) := by rw [Nat.sub_mul]
      _ = barCount * (n / barCount) - (n / barCount) := by rw [one_mul]
      _ ≤ n - (n / barCount) := Nat.sub_le_sub_right h3 _
      _ ≤ n - 1 := Nat.sub_le_sub_left h1 n
      _ < n := by omega

/-- Claim C10: for every snapshot length n ≥ 1 and every config with
barWidth + barGap > 0 and width ≥ barWidth + barGap, every sample index
computed by drawSpectrum (i * floor(n / barCount) for i < barCount) is
strictly below n, so the decimated read never goes out of range even when
barCount exceeds n. -/
theorem drawSpectrum_indices_in_bounds (width barWidth barGap n : ℕ)
    (hn : 1 ≤ n) (hbg : 0 < barWidth + barGap)
    (hw : barWidth + barGap ≤ width) :
    ∀ idx ∈ spectrumIndices width barWidth barGap n, idx < n := by
  intro idx hidx
  simp only [spectrumIndices, List.mem_map, List.mem_range] at hidx
  obtain ⟨i, hi, rfl⟩ := hidx
  exact spectrum_index_lt n _ i hn hi

/-- Witness for Claim C10 at width 6, barWidth 4, barGap 2, n = 1: the single
computed sample index is in bounds. -/
theorem drawSpectrum_indices_in_bounds_witness :
    (spectrumIndices 6 4 2 1).getD 0 99 < 1 :=
  drawSpectrum_indices_in_bounds 6 4 2 1 (by decide) (by decide) (by decide)
    ((spectrumIndices 6 4 2 1).getD 0 99) (by decide)

/-- Claim C3: for every frequency snapshot with at least one bin and every
config with barWidth + barGap > 0, drawSpectrum renders exactly
barCount = floor(width / (barWidth + barGap)) bars; bar i reads sample index
i * floor(binCount / barCount), has height (value / 255) * height and is drawn
bottom-up from y = height - barHeight; and when every snapshot value is 255
every bar has the full canvas height. -/
theorem drawSpectrum_bars (width height barWidth barGap : ℕ) (data : List ℕ)
    (hbg : 0 < barWidth + barGap) (hn : 1 ≤ data.length) :
    (drawSpectrum width height barWidth barGap data).length =
      width / (barWidth + barGap) ∧
    (∀ i, i < width / (barWidth + barGap) →
      (drawSpectrum width height barWidth barGap data).getD i default =
        (((i * (barWidth + barGap) : ℕ) : ℚ),
          (height : ℚ) - specBarHeight height
            (data.getD (i * (data.length / (width / (barWidth + barGap)))) 0),
          specBarHeight height
            (data.getD (i * (data.length / (width / (barWidth + barGap)))) 0))) ∧
    ((∀ s ∈ data, s = 255) →
      ∀ b ∈ drawSpectrum width height barWidth barGap data,
        b.2.2 = (height : ℚ)) := by
  refine ⟨by simp [drawSpectrum, spectrumBarCount], ?_, ?_⟩
  · intro i hi
    have hi' : i < (drawSpectrum width height barWidth barGap data).length := by
      simpa [drawSpectrum, spectrumBarCount] using hi
    rw [List.getD_eq_getElem _ default hi']
    simp [drawSpectrum, spectrumBarCount, spectrumStep]
  · intro hall b hb
    simp only [drawSpectrum, List.mem_map, List.mem_range] at hb
    obtain ⟨i, hi, rfl⟩ := hb
    have hidx : i * spectrumStep data.length
        (spectrumBarCount width barWidth barGap) < data.length :=
      spectrum_index_lt data.length _ i hn hi
    have hv : data.getD (i * spectrumStep data.length
        (spectrumBarCount width barWidth barGap)) 0 = 255 := by
      rw [List.getD_eq_getElem data 0 hidx]
      exact hall _ (List.getElem_mem hidx)
    simp only [hv]
    norm_num [specBarHeight]

/-- Witness for Claim C3 at width 6, height 10, barWidth 4, barGap 2 and the
all-255 snapshot [255]. -/
theorem drawSpectrum_bars_witness :
    (drawSpectrum 6 10 4 2 [255]).length = 6 / (4 + 2) ∧
    (∀ i, i < 6 / (4 + 2) →
      (drawSpectrum 6 10 4 2 [255]).getD i default =
        (((i * (4 + 2) : ℕ) : ℚ),
          ((10 : ℕ) : ℚ) - specBarHeight 10
            (List.getD [255] (i * ((List.length [255]) / (6 / (4 + 2)))) 0),
          specBarHeight 10
            (List.getD [255] (i * ((List.length [255]) / (6 / (4 + 2)))) 0))) ∧
    ((∀ s ∈ [(255 : ℕ)], s = 255) →
      ∀ b ∈ drawSpectrum 6 10 4 2 [255], b.2.2 = ((10 : ℕ) : ℚ)) :=
  drawSpectrum_bars 6 10 4 2 [255] (by decide) (by decide)

/-- The refs and React state of LiveAudioVisualizer that the lifecycle
touches. Each `Bool` ref records whether the corresponding `useRef` currently
holds a live object (`animationFrame` = a scheduled callback is pending;
`stream`, `source`, `audioContext`, `analyser` = the ref is non-null);
`isListening` is the `useState` flag and `error` the user-facing message. -/
structure LiveRefs where
  animationFrame : Bool
  stream : Bool
  source : Bool
  audioContext : Bool
  analyser : Bool
  isListening : Bool
  error : Option String
deriving DecidableEq, Repr

/-- The spec's LifecycleState enum. -/
inductive LifecycleState where
  | Idle
  | Active
  | Error
deriving DecidableEq, Repr

/-- Refinement map from the component's concrete state to the spec's
LifecycleState: listening means Active; a recorded acquisition failure with no
active session means Error; otherwise Idle. -/
def lifecycleState (s : LiveRefs) : LifecycleState :=
  if s.isListening then LifecycleState.Active
  else if s.error.isSome then LifecycleState.Error
  else LifecycleState.Idle

/-- The user-facing message set by the catch block of startListening. -/
def micErrorMessage : String :=
  "Failed to access microphone. Please check permissions."

/-- Result of `navigator.mediaDevices.getUserMedia`: a stream, or a rejection
(permission denied / no device). -/
def acquireMic (granted : Bool) : Except String Unit :=
  if granted then Except.ok () else Except.error "NotAllowedError"

/-- LiveAudioVisualizer.startListening. The whole body is a try/catch: on a
successful acquisition it stores the stream, creates the context, analyser
and source, connects the graph and sets `isListening`; on a rejected
acquisition the catch only records the user-facing message. The catch absorbs
the failure, so the function is total: nothing throws past the component
boundary. -/
def startListening (s : LiveRefs) (granted : Bool) : LiveRefs :=
  match acquireMic granted with
  | Except.ok _ =>
      { s with error := none, stream := true, audioContext := true,
               analyser := true, source := true, isListening := true }
  | Except.error _ =>
      { s with error := some micErrorMessage }

/-- The effect that starts the render loop: it calls animate (which schedules
a frame) only when `isListening` is set and the analyser ref is live. -/
def renderEffectSchedules (s : LiveRefs) : Bool :=
  s.isListening && s.analyser

/-- LiveAudioVisualizer.stopListening: cancel the pending frame, stop the
stream tracks and null the ref, disconnect the source and null the ref, close
the context and null the ref, null the analyser ref, clear `isListening`.
Each of the four guarded steps tests only its own ref. -/
def stopListening (s : LiveRefs) : LiveRefs :=
  { animationFrame := false
    stream := false
    source := false
    audioContext := false
    analyser := false
    isListening := false
    error := s.error }

/-- The observable teardown actions, in program order. -/
inductive TeardownStep where
  | cancelFrame
  | stopTracks
  | disconnectSource
  | closeContext
  | clearAnalyser
deriving DecidableEq, Repr

/-- The sequence of teardown actions stopListening performs from state `s`:
each guarded block contributes its action exactly when its own ref is live,
and the final `analyserRef.current = null` always runs. -/
def stopListeningTrace (s : LiveRefs) : List TeardownStep :=
  (if s.animationFrame then [TeardownStep.cancelFrame] else []) ++
  (if s.stream then [TeardownStep.stopTracks] else []) ++
  (if s.source then [TeardownStep.disconnectSource] else []) ++
  (if s.audioContext then [TeardownStep.closeContext] else []) ++
  [TeardownStep.clearAnalyser]

/-- The teardown order the steps always follow. -/
def teardownOrder : List TeardownStep :=
  [TeardownStep.cancelFrame, TeardownStep.stopTracks,
   TeardownStep.disconnectSource, TeardownStep.closeContext,
   TeardownStep.clearAnalyser]

/-- Result of one invocation of the animate callback. -/
structure AnimateResult where
  drew : Bool
  rescheduled : Bool
deriving DecidableEq, Repr

/-- The animate callback shared (up to the name of the flag) by
AudioVisualizer, LiveAudioVisualizer, TextAudioVisualizer and
RecordingVisualizer: it first returns unless the analyser ref is live, the
canvas ref is live and the state flag is set; then returns if the 2D context
is unavailable; only then does it draw and schedule the next frame. -/
def animate (s : LiveRefs) (canvas ctxOk : Bool) : AnimateResult :=
  if !s.analyser || !canvas || !s.isListening then
    { drew := false, rescheduled := false }
  else if !ctxOk then
    { drew := false, rescheduled := false }
  else
    { drew := true, rescheduled := true }

/-- Claim C4: when microphone acquisition fails (permission denied), the
component moves to the Error lifecycle state with the user-facing message,
returns normally (the catch absorbs the rejection, so nothing is thrown past
the component boundary), never becomes Active, and neither startListening nor
the render effect schedules an animation callback. -/
theorem startListening_failure (s : LiveRefs)
    (hidle : s.isListening = false) (hframe : s.animationFrame = false) :
    lifecycleState (startListening s false) = LifecycleState.Error ∧
    (startListening s false).error = some micErrorMessage ∧
    (startListening s false).isListening = false ∧
    (startListening s false).animationFrame = false ∧
    renderEffectSchedules (startListening s false) = false := by
  simp [startListening, acquireMic, lifecycleState, renderEffectSchedules,
    hidle, hframe]

/-- Witness for Claim C4 from the freshly mounted (all-clear) state. -/
theorem startListening_failure_witness :
    lifecycleState (startListening
      ⟨false, false, false, false, false, false, none⟩ false) =
        LifecycleState.Error ∧
    (startListening ⟨false, false, false, false, false, false, none⟩
      false).error = some micErrorMessage ∧
    (startListening ⟨false, false, false, false, false, false, none⟩
      false).isListening = false ∧
    (startListening ⟨false, false, false, false, false, false, none⟩
      false).animationFrame = false ∧
    renderEffectSchedules (startListening
      ⟨false, false, false, false, false, false, none⟩ false) = false :=
  startListening_failure ⟨false, false, false, false, false, false, none⟩
    rfl rfl

/-- Claim C5: teardown is idempotent: stopListening is a total function (no
invocation produces an error), from any state a second invocation changes
nothing, and afterwards the component is not listening with the stream,
source, context and analyser references all cleared. -/
theorem stopListening_idempotent (s : LiveRefs) :
    stopListening (stopListening s) = stopListening s ∧
    (stopListening s).isListening = false ∧
    (stopListening s).stream = false ∧
    (stopListening s).source = false ∧
    (stopListening s).audioContext = false ∧
    (stopListening s).analyser = false := by
  simp [stopListening]

/-- Witness for Claim C5 from a fully active listening state. -/
theorem stopListening_idempotent_witness :
    stopListening (stopListening
      ⟨true, true, true, true, true, true, none⟩) =
      stopListening ⟨true, true, true, true, true, true, none⟩ ∧
    (stopListening ⟨true, true, true, true, true, true, none⟩).isListening
      = false ∧
    (stopListening ⟨true, true, true, true, true, true, none⟩).stream
      = false ∧
    (stopListening ⟨true, true, true, true, true, true, none⟩).source
      = false ∧
    (stopListening ⟨true, true, true, true, true, true, none⟩).audioContext
      = false ∧
    (stopListening ⟨true, true, true, true, true, true, none⟩).analyser
      = false :=
  stopListening_idempotent ⟨true, true, true, true, true, true, none⟩

/-- Claim C6: each animate invocation checks that the lifecycle state is
Active and that the analyser ref still holds the tap before drawing; if the
state is not Active or the analyser is gone, the invocation neither draws nor
reschedules, so the render loop never runs while the state is not Active. -/
theorem animate_active_guard (s : LiveRefs) (canvas ctxOk : Bool)
    (h : lifecycleState s ≠ LifecycleState.Active ∨ s.analyser = false) :
    animate s canvas ctxOk = { drew := false, rescheduled := false } := by
  rcases h with h | h
  · cases hb : s.isListening
    · simp [animate, hb]
    · exfalso
      exact h (by simp [lifecycleState, hb])
  · simp [animate, h]

/-- Witness for Claim C6 on a concrete non-Active state. -/
theorem animate_active_guard_witness :
    animate ⟨false, false, false, false, true, false, none⟩ true true =
      { drew := false, rescheduled := false } :=
  animate_active_guard ⟨false, false, false, false, true, false, none⟩
    true true (Or.inl (by decide))

/-- Claim C9: from every state, the teardown actions of stopListening happen
in the order cancel-frame, stop-tracks, disconnect-source, close-context,
clear-analyser (its trace is an ordered sublist of teardownOrder), and each
step runs exactly when its own ref is live, independently of what the other
steps had to do; the final clearing of the analyser ref always runs. -/
theorem stopListening_teardown_order (s : LiveRefs) :
    List.Sublist (stopListeningTrace s) teardownOrder ∧
    (TeardownStep.cancelFrame ∈ stopListeningTrace s ↔
      s.animationFrame = true) ∧
    (TeardownStep.stopTracks ∈ stopListeningTrace s ↔ s.stream = true) ∧
    (TeardownStep.disconnectSource ∈ stopListeningTrace s ↔
      s.source = true) ∧
    (TeardownStep.closeContext ∈ stopListeningTrace s ↔
      s.audioContext = true) ∧
    TeardownStep.clearAnalyser ∈ stopListeningTrace s := by
  obtain ⟨af, st, so, ac, an, il, er⟩ := s
  cases af <;> cases st <;> cases so <;> cases ac <;>
    simp [stopListeningTrace, teardownOrder] <;> decide

/-- Witness for Claim C9 on a state where only the stream and the context are
live, exercising steps that run although earlier steps had nothing to do. -/
theorem stopListening_teardown_order_witness :
    List.Sublist (stopListeningTrace
      ⟨false, true, false, true, true, true, none⟩) teardownOrder ∧
    (TeardownStep.cancelFrame ∈ stopListeningTrace
      ⟨false, true, false, true, true, true, none⟩ ↔ false = true) ∧
    (TeardownStep.stopTracks ∈ stopListeningTrace
      ⟨false, true, false, true, true, true, none⟩ ↔ true = true) ∧
    (TeardownStep.disconnectSource ∈ stopListeningTrace
      ⟨false, true, false, true, true, true, none⟩ ↔ false = true) ∧
    (TeardownStep.closeContext ∈ stopListeningTrace
      ⟨false, true, false, true, true, true, none⟩ ↔ true = true) ∧
    TeardownStep.clearAnalyser ∈ stopListeningTrace
      ⟨false, true, false, true, true, true, none⟩ :=
  stopListening_teardown_order ⟨false, true, false, true, true, true, none⟩

/-- The speech-synthesis visualization state of TextAudioVisualizer.speakText:
whether the oscillator is running, whether the frequency- and gain-modulation
interval timers are armed, the playing/paused flags and the error message. -/
structure SpeechState where
  oscillatorRunning : Bool
  freqTimer : Bool
  gainTimer : Bool
  isPlaying : Bool
  isPaused : Bool
  error : Option String
deriving DecidableEq, Repr

/-- utterance.onstart: set playing, clear paused, `oscillator.start()`,
`startModulation()` (arms both interval timers). -/
def utteranceOnStart (s : SpeechState) : SpeechState :=
  { s with isPlaying := true, isPaused := false, oscillatorRunning := true,
           freqTimer := true, gainTimer := true }

/-- utterance.onend: clear playing and paused, reset the clock,
`oscillator.stop()`, `stopModulation()` (clears both interval timers). -/
def utteranceOnEnd (s : SpeechState) : SpeechState :=
  { s with isPlaying := false, isPaused := false, oscillatorRunning := false,
           freqTimer := false, gainTimer := false }

/-- utterance.onpause: set paused, `oscillator.stop()`, `stopModulation()`. -/
def utteranceOnPause (s : SpeechState) : SpeechState :=
  { s with isPaused := true, oscillatorRunning := false,
           freqTimer := false, gainTimer := false }

/-- utterance.onresume: clear paused, `oscillator.start()`,
`startModulation()`. -/
def utteranceOnResume (s : SpeechState) : SpeechState :=
  { s with isPaused := false, oscillatorRunning := true,
           freqTimer := true, gainTimer := true }

/-- utterance.onerror: record the message, clear playing and paused,
`oscillator.stop()`, `stopModulation()`. -/
def utteranceOnError (msg : String) (s : SpeechState) : SpeechState :=
  { s with error := some msg, isPlaying := false, isPaused := false,
           oscillatorRunning := false, freqTimer := false, gainTimer := false }

/-- Claim C7: the oscillator is started by the utterance's start and resume
handlers and stopped by its end, pause and error handlers, and in each of
these five transitions both modulation timers are armed exactly when the
oscillator is running (started and canceled together with it). -/
theorem utterance_oscillator_sync (s : SpeechState) (msg : String) :
    (utteranceOnStart s).oscillatorRunning = true ∧
    (utteranceOnResume s).oscillatorRunning = true ∧
    (utteranceOnEnd s).oscillatorRunning = false ∧
    (utteranceOnPause s).oscillatorRunning = false ∧
    (utteranceOnError msg s).oscillatorRunning = false ∧
    (utteranceOnStart s).freqTimer = (utteranceOnStart s).oscillatorRunning ∧
    (utteranceOnStart s).gainTimer = (utteranceOnStart s).oscillatorRunning ∧
    (utteranceOnResume s).freqTimer = (utteranceOnResume s).oscillatorRunning ∧
    (utteranceOnResume s).gainTimer = (utteranceOnResume s).oscillatorRunning ∧
    (utteranceOnEnd s).freqTimer = (utteranceOnEnd s).oscillatorRunning ∧
    (utteranceOnEnd s).gainTimer = (utteranceOnEnd s).oscillatorRunning ∧
    (utteranceOnPause s).freqTimer = (utteranceOnPause s).oscillatorRunning ∧
    (utteranceOnPause s).gainTimer = (utteranceOnPause s).oscillatorRunning ∧
    (utteranceOnError msg s).freqTimer =
      (utteranceOnError msg s).oscillatorRunning ∧
    (utteranceOnError msg s).gainTimer =
      (utteranceOnError msg s).oscillatorRunning := by
  simp [utteranceOnStart, utteranceOnResume, utteranceOnEnd,
    utteranceOnPause, utteranceOnError]

/-- Witness for Claim C7 from the initial non-speaking state. -/
theorem utterance_oscillator_sync_witness :
    (utteranceOnStart ⟨false, false, false, false, false, none⟩).oscillatorRunning = true ∧
    (utteranceOnResume ⟨false, false, false, false, false, none⟩).oscillatorRunning = true ∧
    (utteranceOnEnd ⟨false, false, false, false, false, none⟩).oscillatorRunning = false ∧
    (utteranceOnPause ⟨false, false, false, false, false, none⟩).oscillatorRunning = false ∧
    (utteranceOnError "interrupted" ⟨false, false, false, false, false, none⟩).oscillatorRunning = false ∧
    (utteranceOnStart ⟨false, false, false, false, false, none⟩).freqTimer =
      (utteranceOnStart ⟨false, false, false, false, false, none⟩).oscillatorRunning ∧
    (utteranceOnStart ⟨false, false, false, false, false, none⟩).gainTimer =
      (utteranceOnStart ⟨false, false, false, false, false, none⟩).oscillatorRunning ∧
    (utteranceOnResume ⟨false, false, false, false, false, none⟩).freqTimer =
      (utteranceOnResume ⟨false, false, false, false, false, none⟩).oscillatorRunning ∧
    (utteranceOnResume ⟨false, false, false, false, false, none⟩).gainTimer =
      (utteranceOnResume ⟨false, false, false, false, false, none⟩).oscillatorRunning ∧
    (utteranceOnEnd ⟨false, false, false, false, false, none⟩).freqTimer =
      (utteranceOnEnd ⟨false, false, false, false, false, none⟩).oscillatorRunning ∧
    (utteranceOnEnd ⟨false, false, false, false, false, none⟩).gainTimer =
      (utteranceOnEnd ⟨false, false, false, false, false, none⟩).oscillatorRunning ∧
    (utteranceOnPause ⟨false, false, false, false, false, none⟩).freqTimer =
      (utteranceOnPause ⟨false, false, false, false, false, none⟩).oscillatorRunning ∧
    (utteranceOnPause ⟨false, false, false, false, false, none⟩).gainTimer =
      (utteranceOnPause ⟨false, false, false, false, false, none⟩).oscillatorRunning ∧
    (utteranceOnError "interrupted" ⟨false, false, false, false, false, none⟩).freqTimer =
      (utteranceOnError "interrupted" ⟨false, false, false, false, false, none⟩).oscillatorRunning ∧
    (utteranceOnError "interrupted" ⟨false, false, false, false, false, none⟩).gainTimer =
      (utteranceOnError "interrupted" ⟨false, false, false, false, false, none⟩).oscillatorRunning :=
  utterance_oscillator_sync ⟨false, false, false, false, false, none⟩
    "interrupted"

/-- The nodes of the audio graphs built by the microphone-acquiring
visualizers. -/
inductive AudioNode where
  | micSource
  | analyserNode
  | destination
deriving DecidableEq, Repr

/-- The `connect` calls LiveAudioVisualizer.startListening performs on a
successful acquisition: `source.connect(analyser)` and then
`analyser.connect(audioContext.destination)`. -/
def liveStartConnections : List (AudioNode × AudioNode) :=
  [(AudioNode.micSource, AudioNode.analyserNode),
   (AudioNode.analyserNode, AudioNode.destination)]

/-- The `connect` calls RecordingVisualizer.startRecording performs on a
successful acquisition: only `source.connect(analyser)`, with the comment
that the destination is deliberately left unconnected to avoid feedback. -/
def recordingStartConnections : List (AudioNode × AudioNode) :=
  [(AudioNode.micSource, AudioNode.analyserNode)]

/-- Claim C1 (refuted by the code): LiveAudioVisualizer's microphone graph
does connect a node of the microphone path to the context's audible output —
`analyser.connect(audioContext.destination)` is among its start-up connect
calls — while RecordingVisualizer's graph, as the claim demands, connects no
node to the destination. -/
theorem liveStart_connects_destination :
    (AudioNode.analyserNode, AudioNode.destination) ∈ liveStartConnections ∧
    (AudioNode.analyserNode, AudioNode.destination) ∉
      recordingStartConnections ∧
    (AudioNode.micSource, AudioNode.destination) ∉
      recordingStartConnections := by
  decide

end AudioViz
